import Mathlib

set_option autoImplicit false
set_option maxHeartbeats 1000000

/-!
Shallow embedding of the Go package `assert` (renormlabs/assert, file
`assert.go`) and of its internal test harness package `spy`
(`internal/spy`).

A `testing.TB` reporting context is modelled by the trace of method calls a
piece of code performs on it: `TBCall` lists the `testing.TB` methods that
occur in the repository.  Each Go check function becomes a Lean function
that returns the trace of calls it makes on its `testing.TB` argument
(the `t testing.TB` parameter itself is dropped, since the trace is the
whole observable interaction with it).

Go interface values (`any`), Go errors together with the standard library
`errors.Is` traversal, and nilable Go maps and slices are modelled by
explicit inductive types.  A Go function value `func()` passed to
`Panics`/`DoesNotPanic` is modelled by its termination behaviour: `none`
for normal return, `some p` for a panic whose recovered payload is `p`
(in supported Go versions even `panic(nil)` yields a non-nil recovered
payload, a `*runtime.PanicNilError`, so panic payloads are never nil).
-/

/-- One method call on a `testing.TB` reporting context.  The arguments of
`Errorf`/`Logf`-style calls are carried as their rendered (`%v`) strings. -/
inductive TBCall where
  | helper
  | errorf (format : String) (args : List String)
  | error (args : List String)
  | fail
  | failNow
  | fatal (args : List String)
  | fatalf (format : String) (args : List String)
  | log (args : List String)
  | logf (format : String) (args : List String)
  deriving DecidableEq, Repr

/-- Calls that mark the current test as failed (`Fail`, `FailNow`, `Error`,
`Errorf`, `Fatal`, `Fatalf`); `Helper`, `Log` and `Logf` do not. -/
def TBCall.isFailing : TBCall → Bool
  | .errorf _ _ => true
  | .error _ => true
  | .fail => true
  | .failNow => true
  | .fatal _ => true
  | .fatalf _ _ => true
  | _ => false

/-- Calls that abort the current test (the fatal family: `FailNow`,
`Fatal`, `Fatalf`). -/
def TBCall.isFatalCall : TBCall → Bool
  | .failNow => true
  | .fatal _ => true
  | .fatalf _ _ => true
  | _ => false

/-- Number of failure-reporting calls in a trace. -/
def failureCount (tr : List TBCall) : Nat :=
  (tr.filter TBCall.isFailing).length

/-- Number of fatal (test-aborting) calls in a trace. -/
def fatalCount (tr : List TBCall) : Nat :=
  (tr.filter TBCall.isFatalCall).length

/-- Trace of the Go statement `if c { t.Errorf(format, args...) }`, the one
failure-reporting pattern every check in `assert.go` uses. -/
def reportIf (c : Prop) [Decidable c] (format : String) (args : List String) : List TBCall :=
  if c then [TBCall.errorf format args] else []

/-- A Go value of static type `any` (an interface value).  A typed value
boxed into an interface — even a nil pointer — is a non-nil interface
value; only `nilInterface` compares equal to `nil`. -/
inductive GoAny where
  | nilInterface
  | ptr (typeName : String) (addr : Option Nat)
  | val (typeName : String) (rendered : String)
  deriving DecidableEq, Repr

/-- Rendering of a `GoAny` by `fmt`'s `%v` verb. -/
def GoAny.render : GoAny → String
  | .nilInterface => "<nil>"
  | .ptr _ none => "<nil>"
  | .ptr _ (some a) => "0x" ++ toString a
  | .val _ r => r

/-- Spec-side notion used by the claims: the absence-of-value sentinel for
the argument's type (the nil interface, or the nil pointer of a pointer
type). -/
def GoAny.isAbsenceSentinel : GoAny → Bool
  | .nilInterface => true
  | .ptr _ none => true
  | _ => false

/-- Go `strings.Contains str substr`: some suffix of `str` starts with
`substr` (true for the empty substring). -/
def goStringContains (str substr : String) : Bool :=
  (str.toList.tails).any (fun t => substr.toList.isPrefixOf t)

/-- A non-nil Go error value as built in this repository and its tests:
`base` for `errors.New`/plain `fmt.Errorf` (with an allocation identity
`id`, distinct per call, and its `Error()` string), `wrap` for
`fmt.Errorf("...: %w", cause)`, and `withIs` for an error type exposing an
`Is(error) bool` method accepting the errors whose identities are listed.
Structural equality on this type models Go's `==` on error interface
values, identities being unique per allocation. -/
inductive GoErr where
  | base (id : Nat) (msg : String)
  | wrap (id : Nat) (msg : String) (cause : GoErr)
  | withIs (id : Nat) (msg : String) (accepts : List Nat)
  deriving DecidableEq, Repr

/-- Allocation identity of an error. -/
def GoErr.errId : GoErr → Nat
  | .base i _ => i
  | .wrap i _ _ => i
  | .withIs i _ _ => i

/-- The `Error()` string of an error. -/
def GoErr.errMsg : GoErr → String
  | .base _ m => m
  | .wrap _ m _ => m
  | .withIs _ m _ => m

/-- The `Unwrap() error` method: only `fmt.Errorf("...: %w", cause)`
errors unwrap, to their cause. -/
def GoErr.unwrapGo : GoErr → Option GoErr
  | .wrap _ _ c => some c
  | _ => none

/-- The optional `Is(error) bool` method: only `withIs` errors have one;
it accepts exactly the targets whose identity is listed. -/
def GoErr.isMethodGo : GoErr → GoErr → Bool
  | .withIs _ _ accepts, t => accepts.contains t.errId
  | _, _ => false

/-- The loop of the standard library `errors.Is` on non-nil arguments:
at each node test `err == target`, then the node's `Is` method, then
follow `Unwrap`. -/
def errIsAux : GoErr → GoErr → Bool
  | GoErr.wrap i m c, t => decide (GoErr.wrap i m c = t) || errIsAux c t
  | e, t => decide (e = t) || e.isMethodGo t

/-- The standard library `errors.Is(err, target)` on possibly-nil error
interface values: if either argument is nil it returns `err == target`,
otherwise it runs the traversal loop. -/
def errorsIsGo : Option GoErr → Option GoErr → Bool
  | none, t => decide (t = none)
  | some _, none => false
  | some e, some t => errIsAux e t

/-- Rendering of an error interface value by `%v`. -/
def renderErrOpt : Option GoErr → String
  | none => "<nil>"
  | some e => e.errMsg

/-- A Go map value: `none` is the nil map, otherwise its entries (keys
distinct).  `len` of a nil map is `0` and lookup in it finds nothing. -/
abbrev GoMap (K V : Type) := Option (List (K × V))

/-- Go `len(m)`. -/
def GoMap.len {K V : Type} : GoMap K V → Nat
  | none => 0
  | some l => l.length

/-- Go `_, ok := m[key]`: whether the key is present. -/
def GoMap.hasKey {K V : Type} [DecidableEq K] : GoMap K V → K → Bool
  | none, _ => false
  | some l, k => l.any (fun p => decide (p.1 = k))

/-- Rendering of a map by `%v`. -/
def goMapRender {K V : Type} [ToString K] [ToString V] : GoMap K V → String
  | none => "map[]"
  | some l =>
      "map[" ++ String.intercalate " " (l.map (fun p => toString p.1 ++ ":" ++ toString p.2)) ++ "]"

/-- A Go slice value: `none` is the nil slice, otherwise its elements.
`len` of a nil slice is `0`. -/
abbrev GoSlice (T : Type) := Option (List T)

/-- Go `len(s)`. -/
def GoSlice.len {T : Type} : GoSlice T → Nat
  | none => 0
  | some l => l.length

/-- Rendering of a slice by `%v`. -/
def goSliceRender {T : Type} [ToString T] : GoSlice T → String
  | none => "[]"
  | some l => "[" ++ String.intercalate " " (l.map toString) ++ "]"

/-- Go `reflect.DeepEqual` on values modelled as Lean data: recursive
structural equality of the modelled value trees. -/
def deepEqualGo {T : Type} [DecidableEq T] (a b : T) : Bool :=
  decide (a = b)

/-- Result of running a Go call that may let a panic escape: `ok` when
control returns normally to the caller, `panicked` when an abnormal
termination signal escapes the call with the given payload. -/
inductive Outcome (π α : Type) where
  | ok (val : α)
  | panicked (payload : π)
  deriving DecidableEq, Repr

/-- Whether control returned normally. -/
def Outcome.isOk {π α : Type} : Outcome π α → Bool
  | .ok _ => true
  | .panicked _ => false

namespace Assert

/-- Go `assert.Equalf`: `t.Helper(); if expected != actual { t.Errorf(format, args...) }`. -/
def Equalf {T : Type} [DecidableEq T] (expected actual : T) (format : String) (args : List String) : List TBCall :=
  TBCall.helper :: reportIf (expected ≠ actual) format args

/-- Go `assert.Equal`: delegates to `Equalf` with the default message. -/
def Equal {T : Type} [DecidableEq T] [ToString T] (expected actual : T) : List TBCall :=
  TBCall.helper :: Equalf expected actual "expected %v to equal %v" [toString actual, toString expected]

/-- Go `assert.NotEqualf`: reports iff `expected == actual`. -/
def NotEqualf {T : Type} [DecidableEq T] (expected actual : T) (format : String) (args : List String) : List TBCall :=
  TBCall.helper :: reportIf (expected = actual) format args

/-- Go `assert.NotEqual`: delegates to `NotEqualf` with the default message. -/
def NotEqual {T : Type} [DecidableEq T] [ToString T] (expected actual : T) : List TBCall :=
  TBCall.helper :: NotEqualf expected actual "expected %v to not equal %v" [toString actual, toString expected]

/-- Go `assert.Truef`: `t.Helper(); Equalf(t, true, actual, format, args...)`. -/
def Truef (actual : Bool) (format : String) (args : List String) : List TBCall :=
  TBCall.helper :: Equalf true actual format args

/-- Go `assert.True`: delegates to `Truef` with the default message. -/
def True (actual : Bool) : List TBCall :=
  TBCall.helper :: Truef actual "expected %v to be true" [toString actual]

/-- Go `assert.Falsef`: `t.Helper(); Equalf(t, false, actual, format, args...)`. -/
def Falsef (actual : Bool) (format : String) (args : List String) : List TBCall :=
  TBCall.helper :: Equalf false actual format args

/-- Go `assert.False`: delegates to `Falsef` with the default message. -/
def False (actual : Bool) : List TBCall :=
  TBCall.helper :: Falsef actual "expected %v to be false" [toString actual]

/-- Go `assert.Nilf`: `t.Helper(); if actual != nil { t.Errorf(...) }` —
the comparison is Go interface comparison against nil. -/
def Nilf (actual : GoAny) (format : String) (args : List String) : List TBCall :=
  TBCall.helper :: reportIf (actual ≠ GoAny.nilInterface) format args

/-- Go `assert.Nil`: delegates to `Nilf` with the default message. -/
def Nil (actual : GoAny) : List TBCall :=
  TBCall.helper :: Nilf actual "expected %v to be nil" [actual.render]

/-- Go `assert.NotNilf`: reports iff `actual == nil` as an interface value. -/
def NotNilf (actual : GoAny) (format : String) (args : List String) : List TBCall :=
  TBCall.helper :: reportIf (actual = GoAny.nilInterface) format args

/-- Go `assert.NotNil`: delegates to `NotNilf` with the default message. -/
def NotNil (actual : GoAny) : List TBCall :=
  TBCall.helper :: NotNilf actual "expected %v to not be nil" [actual.render]

/-- Go `assert.StringContainsf`: reports iff `!strings.Contains(str, substr)`. -/
def StringContainsf (str substr : String) (format : String) (args : List String) : List TBCall :=
  TBCall.helper :: reportIf (goStringContains str substr = false) format args

/-- Go `assert.StringContains`: delegates to `StringContainsf` with the default message. -/
def StringContains (str substr : String) : List TBCall :=
  TBCall.helper :: StringContainsf str substr "expected %v to contain the substring %v" [str, substr]

/-- Go `assert.StringDoesNotContainf`: reports iff `strings.Contains(str, substr)`. -/
def StringDoesNotContainf (str substr : String) (format : String) (args : List String) : List TBCall :=
  TBCall.helper :: reportIf (goStringContains str substr = true) format args

/-- Go `assert.StringDoesNotContain`: delegates to `StringDoesNotContainf` with the default message. -/
def StringDoesNotContain (str substr : String) : List TBCall :=
  TBCall.helper :: StringDoesNotContainf str substr "expected %v to not contain the substring %v" [str, substr]

/-- Go `assert.Panicsf`: `t.Helper()`, run `f` under a deferred
`recover()`; the named result `recovery` is the recovered payload, and if
it is nil (no panic happened) the check reports; the deferred recovery
guarantees the call itself returns normally. -/
def Panicsf {π : Type} (f : Option π) (format : String) (args : List String) :
    Outcome π (Option π × List TBCall) :=
  Outcome.ok (f, TBCall.helper :: reportIf (f.isNone = true) format args)

/-- Go `assert.Panics`: `t.Helper(); return Panicsf(t, f, defaultMessage)`. -/
def Panics {π : Type} (f : Option π) : Outcome π (Option π × List TBCall) :=
  match Panicsf f "expected function to panic, did not panic" [] with
  | Outcome.ok (r, tr) => Outcome.ok (r, TBCall.helper :: tr)
  | Outcome.panicked p => Outcome.panicked p

/-- Go `assert.DoesNotPanicf`: `t.Helper()`, run `f` under a deferred
`recover()`; if something was recovered the check reports; nothing is
re-raised. -/
def DoesNotPanicf {π : Type} (f : Option π) (format : String) (args : List String) :
    Outcome π (List TBCall) :=
  Outcome.ok (TBCall.helper :: reportIf (f.isSome = true) format args)

/-- Go `assert.DoesNotPanic`: delegates to `DoesNotPanicf` with the default message. -/
def DoesNotPanic {π : Type} (f : Option π) : Outcome π (List TBCall) :=
  match DoesNotPanicf f "expected function to not panic, did panic" [] with
  | Outcome.ok tr => Outcome.ok (TBCall.helper :: tr)
  | Outcome.panicked p => Outcome.panicked p

/-- Go `assert.ErrorIsf`: reports iff `!errors.Is(err, target)`. -/
def ErrorIsf (err target : Option GoErr) (format : String) (args : List String) : List TBCall :=
  TBCall.helper :: reportIf (errorsIsGo err target = false) format args

/-- Go `assert.ErrorIs`: delegates to `ErrorIsf` with the default message. -/
def ErrorIs (err target : Option GoErr) : List TBCall :=
  TBCall.helper :: ErrorIsf err target "expected error %v to be %v" [renderErrOpt err, renderErrOpt target]

/-- Go `assert.ErrorIsNotf`: reports iff `errors.Is(err, target)`. -/
def ErrorIsNotf (err target : Option GoErr) (format : String) (args : List String) : List TBCall :=
  TBCall.helper :: reportIf (errorsIsGo err target = true) format args

/-- Go `assert.ErrorIsNot`: delegates to `ErrorIsNotf` with the default message. -/
def ErrorIsNot (err target : Option GoErr) : List TBCall :=
  TBCall.helper :: ErrorIsNotf err target "expected error %v to not be %v" [renderErrOpt err, renderErrOpt target]

/-- Go `assert.MapContainsKeyf`: reports iff the key is absent. -/
def MapContainsKeyf {K V : Type} [DecidableEq K] (m : GoMap K V) (key : K) (format : String) (args : List String) : List TBCall :=
  TBCall.helper :: reportIf (m.hasKey key = false) format args

/-- Go `assert.MapContainsKey`: delegates to `MapContainsKeyf` with the default message. -/
def MapContainsKey {K V : Type} [DecidableEq K] [ToString K] (m : GoMap K V) (key : K) : List TBCall :=
  TBCall.helper :: MapContainsKeyf m key "expected map to contain key %v" [toString key]

/-- Go `assert.MapDoesNotContainKeyf`: reports iff the key is present. -/
def MapDoesNotContainKeyf {K V : Type} [DecidableEq K] (m : GoMap K V) (key : K) (format : String) (args : List String) : List TBCall :=
  TBCall.helper :: reportIf (m.hasKey key = true) format args

/-- Go `assert.MapDoesNotContainKey`: delegates to `MapDoesNotContainKeyf` with the default message. -/
def MapDoesNotContainKey {K V : Type} [DecidableEq K] [ToString K] (m : GoMap K V) (key : K) : List TBCall :=
  TBCall.helper :: MapDoesNotContainKeyf m key "expected map to not contain key %v" [toString key]

/-- Go `assert.EmptyMapf`: reports iff `len(m) != 0`. -/
def EmptyMapf {K V : Type} (m : GoMap K V) (format : String) (args : List String) : List TBCall :=
  TBCall.helper :: reportIf (m.len ≠ 0) format args

/-- Go `assert.EmptyMap`: delegates to `EmptyMapf` with the default message. -/
def EmptyMap {K V : Type} [ToString K] [ToString V] (m : GoMap K V) : List TBCall :=
  TBCall.helper :: EmptyMapf m "expected map %v to be empty" [goMapRender m]

/-- Go `assert.NotEmptyMapf`: reports iff `len(m) == 0`. -/
def NotEmptyMapf {K V : Type} (m : GoMap K V) (format : String) (args : List String) : List TBCall :=
  TBCall.helper :: reportIf (m.len = 0) format args

/-- Go `assert.NotEmptyMap`: delegates to `NotEmptyMapf` with the default message. -/
def NotEmptyMap {K V : Type} [ToString K] [ToString V] (m : GoMap K V) : List TBCall :=
  TBCall.helper :: NotEmptyMapf m "expected map %v to not be empty" [goMapRender m]

/-- Go `assert.EmptySlicef`: reports iff `len(slice) != 0`. -/
def EmptySlicef {T : Type} (slice : GoSlice T) (format : String) (args : List String) : List TBCall :=
  TBCall.helper :: reportIf (slice.len ≠ 0) format args

/-- Go `assert.EmptySlice`: delegates to `EmptySlicef` with the default message. -/
def EmptySlice {T : Type} [ToString T] (slice : GoSlice T) : List TBCall :=
  TBCall.helper :: EmptySlicef slice "expected slice %v to be empty" [goSliceRender slice]

/-- Go `assert.NotEmptySlicef`: reports iff `len(slice) == 0`. -/
def NotEmptySlicef {T : Type} (slice : GoSlice T) (format : String) (args : List String) : List TBCall :=
  TBCall.helper :: reportIf (slice.len = 0) format args

/-- Go `assert.NotEmptySlice`: delegates to `NotEmptySlicef` with the default message. -/
def NotEmptySlice {T : Type} [ToString T] (slice : GoSlice T) : List TBCall :=
  TBCall.helper :: NotEmptySlicef slice "expected slice %v to not be empty" [goSliceRender slice]

/-- Go `assert.DeepEqualf`: reports iff `!reflect.DeepEqual(expected, actual)`. -/
def DeepEqualf {T : Type} [DecidableEq T] (expected actual : T) (format : String) (args : List String) : List TBCall :=
  TBCall.helper :: reportIf (deepEqualGo expected actual = false) format args

/-- Go `assert.DeepEqual`: delegates to `DeepEqualf` with the default message. -/
def DeepEqual {T : Type} [DecidableEq T] [ToString T] (expected actual : T) : List TBCall :=
  TBCall.helper :: DeepEqualf expected actual "expected %v to reflect.DeepEqual %v" [toString actual, toString expected]

/-- Go `assert.NotDeepEqualf`: reports iff `reflect.DeepEqual(expected, actual)`. -/
def NotDeepEqualf {T : Type} [DecidableEq T] (expected actual : T) (format : String) (args : List String) : List TBCall :=
  TBCall.helper :: reportIf (deepEqualGo expected actual = true) format args

/-- Go `assert.NotDeepEqual`: delegates to `NotDeepEqualf` with the default message. -/
def NotDeepEqual {T : Type} [DecidableEq T] [ToString T] (expected actual : T) : List TBCall :=
  TBCall.helper :: NotDeepEqualf expected actual "expected %v to not reflect.DeepEqual %v" [toString actual, toString expected]

end Assert

namespace spy

/-- Go `spy.TBSpy`: wraps a `testing.TB` and adds the `failed` flag.  The
wrapped context is represented by the traces the methods emit on it. -/
structure TBSpy where
  failed : Bool
  deriving DecidableEq, Repr

/-- Go `spy.SpyOn`: `&TBSpy{TB: t}` — the flag starts at its zero value,
false. -/
def SpyOn : TBSpy :=
  { failed := false }

/-- Go `(*TBSpy).SpiedOnAFailure`: returns the flag. -/
def TBSpy.SpiedOnAFailure (s : TBSpy) : Bool :=
  s.failed

/-- Go `(*TBSpy).Fail`: `s.TB.Helper(); s.failed = true`.  The second
component is the trace of calls made on the wrapped `testing.TB`. -/
def TBSpy.Fail (s : TBSpy) : TBSpy × List TBCall :=
  ({ s with failed := true }, [TBCall.helper])

/-- Go `(*TBSpy).FailNow`: `s.TB.Helper(); s.failed = true`. -/
def TBSpy.FailNow (s : TBSpy) : TBSpy × List TBCall :=
  ({ s with failed := true }, [TBCall.helper])

/-- Go `(*TBSpy).Error`: sets the flag and forwards the message to the
wrapped context's `Log`. -/
def TBSpy.Error (s : TBSpy) (args : List String) : TBSpy × List TBCall :=
  ({ s with failed := true }, [TBCall.helper, TBCall.log args])

/-- Go `(*TBSpy).Errorf`: sets the flag and forwards the message to the
wrapped context's `Logf`. -/
def TBSpy.Errorf (s : TBSpy) (format : String) (args : List String) : TBSpy × List TBCall :=
  ({ s with failed := true }, [TBCall.helper, TBCall.logf format args])

/-- Go `(*TBSpy).Fatalf`: sets the flag and forwards the message to the
wrapped context's `Logf`. -/
def TBSpy.Fatalf (s : TBSpy) (format : String) (args : List String) : TBSpy × List TBCall :=
  ({ s with failed := true }, [TBCall.helper, TBCall.logf format args])

/-- Go `(*TBSpy).Fatal`: sets the flag and forwards the message to the
wrapped context's `Log`. -/
def TBSpy.Fatal (s : TBSpy) (args : List String) : TBSpy × List TBCall :=
  ({ s with failed := true }, [TBCall.helper, TBCall.log args])

/-- Go `(*TBSpy).Log`: not overridden by the spy, so the embedded wrapped
context's `Log` runs directly. -/
def TBSpy.Log (s : TBSpy) (args : List String) : TBSpy × List TBCall :=
  (s, [TBCall.log args])

/-- Go `(*TBSpy).Logf`: not overridden by the spy; forwarded to the
wrapped context. -/
def TBSpy.Logf (s : TBSpy) (format : String) (args : List String) : TBSpy × List TBCall :=
  (s, [TBCall.logf format args])

/-- Go `(*TBSpy).Helper`: not overridden by the spy; forwarded to the
wrapped context. -/
def TBSpy.Helper (s : TBSpy) : TBSpy × List TBCall :=
  (s, [TBCall.helper])

/-- Go `(*TBSpy).ExpectFailure`: `s.TB.Helper();
assert.Truef(s.TB, s.failed, "[spy] Expected test failure but got success")`
— note the assertion runs against the wrapped context `s.TB`, not the spy. -/
def TBSpy.ExpectFailure (s : TBSpy) : TBSpy × List TBCall :=
  (s, TBCall.helper :: Assert.Truef s.failed "[spy] Expected test failure but got success" [])

/-- Go `(*TBSpy).ExpectSuccess`: `s.TB.Helper();
assert.Falsef(s.TB, s.failed, "[spy] Expected test success but got failure")`
— again against the wrapped context. -/
def TBSpy.ExpectSuccess (s : TBSpy) : TBSpy × List TBCall :=
  (s, TBCall.helper :: Assert.Falsef s.failed "[spy] Expected test success but got failure" [])

/-- One operation a client can perform on a `TBSpy`. -/
inductive SpyOp where
  | fail
  | failNow
  | error (args : List String)
  | errorf (format : String) (args : List String)
  | fatal (args : List String)
  | fatalf (format : String) (args : List String)
  | log (args : List String)
  | logf (format : String) (args : List String)
  | helper
  | expectFailure
  | expectSuccess
  deriving DecidableEq, Repr

/-- The failure-reporting operations of the `testing.TB` capability set:
`Fail`, `FailNow`, `Error`, `Errorf`, `Fatal`, `Fatalf`. -/
def SpyOp.isFailureReport : SpyOp → Bool
  | .fail => true
  | .failNow => true
  | .error _ => true
  | .errorf _ _ => true
  | .fatal _ => true
  | .fatalf _ _ => true
  | _ => false

/-- Dispatch one operation to the spy method it names. -/
def spyStep (s : TBSpy) : SpyOp → TBSpy × List TBCall
  | .fail => s.Fail
  | .failNow => s.FailNow
  | .error args => s.Error args
  | .errorf format args => s.Errorf format args
  | .fatal args => s.Fatal args
  | .fatalf format args => s.Fatalf format args
  | .log args => s.Log args
  | .logf format args => s.Logf format args
  | .helper => s.Helper
  | .expectFailure => s.ExpectFailure
  | .expectSuccess => s.ExpectSuccess

/-- Run a sequence of operations on a spy, collecting the calls made on
the wrapped context. -/
def spyRun (s : TBSpy) : List SpyOp → TBSpy × List TBCall
  | [] => (s, [])
  | op :: ops =>
      let step := spyStep s op
      let rest := spyRun step.1 ops
      (rest.1, step.2 ++ rest.2)

end spy

/-! Counting lemmas for traces. -/

@[simp] theorem failureCount_nil : failureCount [] = 0 := rfl

@[simp] theorem failureCount_helper_cons (l : List TBCall) :
    failureCount (TBCall.helper :: l) = failureCount l := by
  simp [failureCount, List.filter_cons, TBCall.isFailing]

@[simp] theorem failureCount_log_cons (args : List String) (l : List TBCall) :
    failureCount (TBCall.log args :: l) = failureCount l := by
  simp [failureCount, List.filter_cons, TBCall.isFailing]

@[simp] theorem failureCount_logf_cons (format : String) (args : List String) (l : List TBCall) :
    failureCount (TBCall.logf format args :: l) = failureCount l := by
  simp [failureCount, List.filter_cons, TBCall.isFailing]

@[simp] theorem failureCount_errorf_cons (format : String) (args : List String) (l : List TBCall) :
    failureCount (TBCall.errorf format args :: l) = failureCount l + 1 := by
  simp [failureCount, List.filter_cons, TBCall.isFailing, Nat.add_comm]

@[simp] theorem failureCount_append (l₁ l₂ : List TBCall) :
    failureCount (l₁ ++ l₂) = failureCount l₁ + failureCount l₂ := by
  simp [failureCount, List.filter_append]

@[simp] theorem failureCount_reportIf (c : Prop) [Decidable c] (format : String) (args : List String) :
    failureCount (reportIf c format args) = if c then 1 else 0 := by
  by_cases h : c <;> simp [reportIf, h]

@[simp] theorem fatalCount_nil : fatalCount [] = 0 := rfl

@[simp] theorem fatalCount_helper_cons (l : List TBCall) :
    fatalCount (TBCall.helper :: l) = fatalCount l := by
  simp [fatalCount, List.filter_cons, TBCall.isFatalCall]

@[simp] theorem fatalCount_reportIf (c : Prop) [Decidable c] (format : String) (args : List String) :
    fatalCount (reportIf c format args) = 0 := by
  by_cases h : c <;> simp [reportIf, fatalCount, List.filter_cons, TBCall.isFatalCall, h]

/-! Behaviour of single spy operations. -/

@[simp] theorem spyStep_failed (s : spy.TBSpy) (op : spy.SpyOp) :
    ((spy.spyStep s op).1).failed = (s.failed || op.isFailureReport) := by
  cases op <;>
    simp [spy.spyStep, spy.TBSpy.Fail, spy.TBSpy.FailNow, spy.TBSpy.Error, spy.TBSpy.Errorf,
      spy.TBSpy.Fatal, spy.TBSpy.Fatalf, spy.TBSpy.Log, spy.TBSpy.Logf, spy.TBSpy.Helper,
      spy.TBSpy.ExpectFailure, spy.TBSpy.ExpectSuccess, spy.SpyOp.isFailureReport]

theorem spyRun_failed (ops : List spy.SpyOp) (s : spy.TBSpy) :
    ((spy.spyRun s ops).1).failed = (s.failed || ops.any spy.SpyOp.isFailureReport) := by
  induction ops generalizing s with
  | nil => simp [spy.spyRun]
  | cons op ops ih => simp [spy.spyRun, ih, Bool.or_assoc]

theorem spyStep_trace_nonfailing (s : spy.TBSpy) (op : spy.SpyOp)
    (h : op.isFailureReport = true) :
    ((spy.spyStep s op).2).all (fun c => !c.isFailing) = true := by
  cases op <;> simp_all [spy.spyStep, spy.TBSpy.Fail, spy.TBSpy.FailNow, spy.TBSpy.Error,
    spy.TBSpy.Errorf, spy.TBSpy.Fatal, spy.TBSpy.Fatalf, spy.SpyOp.isFailureReport,
    TBCall.isFailing]

theorem expectFailure_failureCount (s : spy.TBSpy) :
    failureCount (s.ExpectFailure).2 = if s.failed then 0 else 1 := by
  cases h : s.failed <;>
    simp [spy.TBSpy.ExpectFailure, Assert.Truef, Assert.Equalf, h]

theorem expectSuccess_failureCount (s : spy.TBSpy) :
    failureCount (s.ExpectSuccess).2 = if s.failed then 1 else 0 := by
  cases h : s.failed <;>
    simp [spy.TBSpy.ExpectSuccess, Assert.Falsef, Assert.Equalf, h]

/-- Extract the calls a `Panics`/`Panicsf` run made on the reporting
context (empty if, hypothetically, the signal escaped). -/
def panicsCalls {π : Type} : Outcome π (Option π × List TBCall) → List TBCall
  | .ok (_, tr) => tr
  | .panicked _ => []

/-- Extract the value `Panics`/`Panicsf` returned to its caller. -/
def panicsRecovery {π : Type} : Outcome π (Option π × List TBCall) → Option π
  | .ok (r, _) => r
  | .panicked _ => none

/-- Extract the calls a `DoesNotPanic`/`DoesNotPanicf` run made on the
reporting context. -/
def dnpCalls {π : Type} : Outcome π (List TBCall) → List TBCall
  | .ok tr => tr
  | .panicked _ => []

/-- Spec-side chain-of-wrapped-causes matching relation, written from the
claim's words: an error matches the target if it is the target, or its
Is-equivalence predicate accepts the target, or it unwraps to an error
that matches the target. -/
inductive ErrMatches : GoErr → GoErr → Prop where
  | is_target (e : GoErr) : ErrMatches e e
  | via_accept (e t : GoErr) : e.isMethodGo t = true → ErrMatches e t
  | via_unwrap (e c t : GoErr) : e.unwrapGo = some c → ErrMatches c t → ErrMatches e t

/-- The code's `errors.Is` loop decides exactly the spec's
chain-of-wrapped-causes matching relation. -/
theorem errIsAux_iff_matches (e t : GoErr) : errIsAux e t = true ↔ ErrMatches e t := by
  constructor
  · intro h
    induction e with
    | base i m =>
        simp [errIsAux, GoErr.isMethodGo] at h
        exact h ▸ ErrMatches.is_target _
    | wrap i m c ih =>
        simp [errIsAux] at h
        rcases h with h | h
        · exact h ▸ ErrMatches.is_target _
        · exact ErrMatches.via_unwrap _ c _ rfl (ih h)
    | withIs i m accepts =>
        simp [errIsAux, GoErr.isMethodGo] at h
        rcases h with h | h
        · exact h ▸ ErrMatches.is_target _
        · exact ErrMatches.via_accept _ _ (by simp [GoErr.isMethodGo, h])
  · intro h
    induction h with
    | is_target e => cases e <;> simp [errIsAux]
    | via_accept e t ha => cases e <;> simp_all [errIsAux, GoErr.isMethodGo]
    | via_unwrap e c t hu hm ih => cases e <;> simp_all [errIsAux, GoErr.unwrapGo]

/-- C1: `Panics`/`Panicsf` pass (report no failure) iff the supplied
procedure panics; they return the recovered payload to the caller, and in
every case control returns normally — the signal never escapes the check. -/
theorem panics_contract :
    (∀ (π : Type) (f : Option π) (format : String) (args : List String),
        (Assert.Panicsf f format args).isOk = true ∧
        panicsRecovery (Assert.Panicsf f format args) = f ∧
        failureCount (panicsCalls (Assert.Panicsf f format args)) = (if f.isSome then 0 else 1)) ∧
    (∀ (π : Type) (f : Option π),
        (Assert.Panics f).isOk = true ∧
        panicsRecovery (Assert.Panics f) = f ∧
        failureCount (panicsCalls (Assert.Panics f)) = (if f.isSome then 0 else 1)) := by
  constructor
  · intro π f format args
    cases f <;> simp [Assert.Panicsf, Outcome.isOk, panicsRecovery, panicsCalls]
  · intro π f
    cases f <;> simp [Assert.Panics, Assert.Panicsf, Outcome.isOk, panicsRecovery, panicsCalls]

/-- C2 (amended): `Nil` passes iff the argument, as a Go interface value,
is the nil interface, and `NotNil` passes iff it is not; a typed nil
pointer boxed into the `any` argument is a non-nil interface value, so
`Nil` fails on it. -/
theorem nil_check_amended :
    ∀ (v : GoAny) (format : String) (args : List String),
      (failureCount (Assert.Nilf v format args) = 0 ↔ v = GoAny.nilInterface) ∧
      (failureCount (Assert.NotNilf v format args) = 0 ↔ v ≠ GoAny.nilInterface) ∧
      (failureCount (Assert.Nil v) = 0 ↔ v = GoAny.nilInterface) ∧
      (failureCount (Assert.NotNil v) = 0 ↔ v ≠ GoAny.nilInterface) := by
  intro v format args
  refine ⟨?_, ?_, ?_, ?_⟩ <;>
    by_cases h : v = GoAny.nilInterface <;>
      simp [Assert.Nilf, Assert.NotNilf, Assert.Nil, Assert.NotNil, h]

/-- C2 (counterexample): a nil-valued pointer boxed into the `any`
argument is the absence-of-value sentinel of its pointer type, yet `Nil`
reports exactly one failure on it — refuting the claim that `Nil` passes
on a nil-valued pointer argument. -/
theorem nil_claim_counterexample :
    GoAny.isAbsenceSentinel (GoAny.ptr "*int" none) = true ∧
    failureCount (Assert.Nil (GoAny.ptr "*int" none)) = 1 ∧
    failureCount (Assert.Nilf (GoAny.ptr "*int" none) "expected %v to be nil" []) = 1 := by
  refine ⟨rfl, rfl, rfl⟩

/-- C9: for comparable values, `Equal x x` reports no failure and
`NotEqual x x` exactly one; for `x ≠ y`, `Equal x y` reports exactly one
failure and `NotEqual x y` none. -/
theorem equal_not_equal_contract :
    ∀ (T : Type) [DecidableEq T] [ToString T] (x y : T),
      (failureCount (Assert.Equal x y) = if x = y then 0 else 1) ∧
      (failureCount (Assert.NotEqual x y) = if x = y then 1 else 0) ∧
      (failureCount (Assert.Equal x x) = 0) ∧
      (failureCount (Assert.NotEqual x x) = 1) := by
  intro T _ _ x y
  refine ⟨?_, ?_, ?_, ?_⟩ <;>
    by_cases h : x = y <;>
      simp [Assert.Equal, Assert.Equalf, Assert.NotEqual, Assert.NotEqualf, h]

/-- C10: the nil map and the nil slice behave exactly like constructed
empty ones: `EmptyMap`/`EmptySlice` pass and `NotEmptyMap`/`NotEmptySlice`
report one failure on them, because all four checks decide only on the
collection's length. -/
theorem empty_collections_contract :
    ∀ (K V T : Type) [ToString K] [ToString V] [ToString T] (format : String) (args : List String),
      (failureCount (Assert.EmptyMapf (none : GoMap K V) format args) = 0) ∧
      (failureCount (Assert.NotEmptyMapf (none : GoMap K V) format args) = 1) ∧
      (failureCount (Assert.EmptySlicef (none : GoSlice T) format args) = 0) ∧
      (failureCount (Assert.NotEmptySlicef (none : GoSlice T) format args) = 1) ∧
      (failureCount (Assert.EmptyMap (none : GoMap K V)) = 0) ∧
      (failureCount (Assert.NotEmptyMap (none : GoMap K V)) = 1) ∧
      (failureCount (Assert.EmptySlice (none : GoSlice T)) = 0) ∧
      (failureCount (Assert.NotEmptySlice (none : GoSlice T)) = 1) ∧
      (∀ m : GoMap K V, failureCount (Assert.EmptyMapf m format args) = if m.len = 0 then 0 else 1) ∧
      (∀ m : GoMap K V, failureCount (Assert.NotEmptyMapf m format args) = if m.len = 0 then 1 else 0) ∧
      (∀ s : GoSlice T, failureCount (Assert.EmptySlicef s format args) = if s.len = 0 then 0 else 1) ∧
      (∀ s : GoSlice T, failureCount (Assert.NotEmptySlicef s format args) = if s.len = 0 then 1 else 0) := by
  intro K V T _ _ _ format args
  refine ⟨?_, ?_, ?_, ?_, ?_, ?_, ?_, ?_, ?_, ?_, ?_, ?_⟩ <;>
    simp [Assert.EmptyMapf, Assert.NotEmptyMapf, Assert.EmptySlicef, Assert.NotEmptySlicef,
      Assert.EmptyMap, Assert.NotEmptyMap, Assert.EmptySlice, Assert.NotEmptySlice,
      GoMap.len, GoSlice.len]

/-- C3: the spy's intercepted failure-reporting methods forward message
text only to the wrapped context's `Log`/`Logf`, and a run of any sequence
of intercepted failure-reporting operations performs no failure-reporting
call at all on the wrapped context. -/
theorem spy_isolation :
    (∀ (s : spy.TBSpy) (args : List String),
        (s.Error args).2 = [TBCall.helper, TBCall.log args] ∧
        (s.Fatal args).2 = [TBCall.helper, TBCall.log args]) ∧
    (∀ (s : spy.TBSpy) (format : String) (args : List String),
        (s.Errorf format args).2 = [TBCall.helper, TBCall.logf format args] ∧
        (s.Fatalf format args).2 = [TBCall.helper, TBCall.logf format args]) ∧
    (∀ (s : spy.TBSpy) (ops : List spy.SpyOp),
        (∀ op ∈ ops, op.isFailureReport = true) →
        ((spy.spyRun s ops).2).all (fun c => !c.isFailing) = true) := by
  refine ⟨fun s args => ⟨rfl, rfl⟩, fun s format args => ⟨rfl, rfl⟩, ?_⟩
  intro s ops h
  induction ops generalizing s with
  | nil => simp [spy.spyRun]
  | cons op ops ih =>
      have h1 := spyStep_trace_nonfailing s op (h op (by simp))
      have h2 := ih (spy.spyStep s op).1 (fun o ho => h o (by simp [ho]))
      simp [spy.spyRun, List.all_append, h1, h2]

/-- Witness for C3 at a concrete spy and operation sequence. -/
theorem spy_isolation_witness :
    ((spy.spyRun spy.SpyOn [spy.SpyOp.fail, spy.SpyOp.errorf "boom" [], spy.SpyOp.fatal ["x"]]).2).all
      (fun c => !c.isFailing) = true :=
  spy_isolation.2.2 spy.SpyOn
    [spy.SpyOp.fail, spy.SpyOp.errorf "boom" [], spy.SpyOp.fatal ["x"]] (by decide)

/-- C4: starting from a fresh spy, `SpiedOnAFailure` returns whether some
failure-reporting operation has been invoked; when one has,
`ExpectFailure` reports nothing on the wrapped context and
`ExpectSuccess` reports exactly one failure there, and on a fresh spy the
two are mirrored. -/
theorem spy_roundtrip :
    ∀ ops : List spy.SpyOp,
      ((spy.spyRun spy.SpyOn ops).1).SpiedOnAFailure = ops.any spy.SpyOp.isFailureReport ∧
      failureCount (((spy.spyRun spy.SpyOn ops).1).ExpectFailure).2 =
        (if ops.any spy.SpyOp.isFailureReport then 0 else 1) ∧
      failureCount (((spy.spyRun spy.SpyOn ops).1).ExpectSuccess).2 =
        (if ops.any spy.SpyOp.isFailureReport then 1 else 0) := by
  intro ops
  have h := spyRun_failed ops spy.SpyOn
  have h0 : spy.SpyOn.failed = false := rfl
  rw [h0, Bool.false_or] at h
  exact ⟨by simp [spy.TBSpy.SpiedOnAFailure, h],
    by rw [expectFailure_failureCount, h],
    by rw [expectSuccess_failureCount, h]⟩

/-- C5: the spy's failure flag starts false at `SpyOn`, and every
operation leaves it equal to its old value or-ed with whether the
operation is one of the intercepted failure reports — so every failure
report sets it and no operation ever resets it, singly or in sequence. -/
theorem spy_flag_invariant :
    spy.SpyOn.failed = false ∧
    (∀ (s : spy.TBSpy) (op : spy.SpyOp),
        ((spy.spyStep s op).1).failed = (s.failed || op.isFailureReport)) ∧
    (∀ (s : spy.TBSpy) (ops : List spy.SpyOp),
        ((spy.spyRun s ops).1).failed = (s.failed || ops.any spy.SpyOp.isFailureReport)) :=
  ⟨rfl, spyStep_failed, fun s ops => spyRun_failed ops s⟩

/-- C8: `ErrorIs` passes iff `errors.Is` accepts the pair and `ErrorIsNot`
is its exact negation; the `errors.Is` loop decides exactly the spec's
chain-of-wrapped-causes matching relation; a nil error matches no non-nil
target (and the embedded check is a total function — it raises no
signal); a wrapped target matches, and two distinct base errors match
only if they are the same allocation. -/
theorem error_is_contract :
    (∀ (err target : Option GoErr) (format : String) (args : List String),
        failureCount (Assert.ErrorIsf err target format args) =
          (if errorsIsGo err target = true then 0 else 1) ∧
        failureCount (Assert.ErrorIsNotf err target format args) =
          (if errorsIsGo err target = true then 1 else 0) ∧
        failureCount (Assert.ErrorIs err target) =
          (if errorsIsGo err target = true then 0 else 1) ∧
        failureCount (Assert.ErrorIsNot err target) =
          (if errorsIsGo err target = true then 1 else 0)) ∧
    (∀ e t : GoErr, errorsIsGo (some e) (some t) = true ↔ ErrMatches e t) ∧
    (∀ t : GoErr, errorsIsGo none (some t) = false) ∧
    (∀ (i : Nat) (m : String) (t : GoErr),
        errorsIsGo (some (GoErr.wrap i m t)) (some t) = true) ∧
    (∀ (i j : Nat) (m₁ m₂ : String),
        errorsIsGo (some (GoErr.base i m₁)) (some (GoErr.base j m₂)) =
          decide (i = j ∧ m₁ = m₂)) := by
  refine ⟨?_, ?_, ?_, ?_, ?_⟩
  · intro err target format args
    by_cases h : errorsIsGo err target = true <;>
      simp [Assert.ErrorIsf, Assert.ErrorIsNotf, Assert.ErrorIs, Assert.ErrorIsNot, h]
  · intro e t
    simpa [errorsIsGo] using errIsAux_iff_matches e t
  · intro t
    simp [errorsIsGo]
  · intro i m t
    have : errIsAux t t = true := (errIsAux_iff_matches t t).mpr (ErrMatches.is_target t)
    simp [errorsIsGo, errIsAux, this]
  · intro i j m₁ m₂
    simp [errorsIsGo, errIsAux, GoErr.isMethodGo]

/-- C6: every check function of the assertion library performs exactly
zero failure-report calls when its predicate holds and exactly one
(non-fatal, an `Errorf`) when it does not, and never invokes a fatal-fail
operation of the reporting context; the checks are total functions of
their inputs (they mutate nothing, return no error value, and — witnessed
explicitly by the `isOk` conjuncts for the panic checks, the only ones
that run caller code — always return control to the caller). -/
theorem check_report_discipline :
    (∀ (T : Type) [DecidableEq T] (expected actual : T) (format : String) (args : List String),
        failureCount (Assert.Equalf expected actual format args) = (if expected = actual then 0 else 1) ∧
        fatalCount (Assert.Equalf expected actual format args) = 0) ∧
    (∀ (T : Type) [DecidableEq T] [ToString T] (expected actual : T),
        failureCount (Assert.Equal expected actual) = (if expected = actual then 0 else 1) ∧
        fatalCount (Assert.Equal expected actual) = 0) ∧
    (∀ (T : Type) [DecidableEq T] (expected actual : T) (format : String) (args : List String),
        failureCount (Assert.NotEqualf expected actual format args) = (if expected = actual then 1 else 0) ∧
        fatalCount (Assert.NotEqualf expected actual format args) = 0) ∧
    (∀ (T : Type) [DecidableEq T] [ToString T] (expected actual : T),
        failureCount (Assert.NotEqual expected actual) = (if expected = actual then 1 else 0) ∧
        fatalCount (Assert.NotEqual expected actual) = 0) ∧
    (∀ (actual : Bool) (format : String) (args : List String),
        failureCount (Assert.Truef actual format args) = (if actual = true then 0 else 1) ∧
        fatalCount (Assert.Truef actual format args) = 0) ∧
    (∀ actual : Bool,
        failureCount (Assert.True actual) = (if actual = true then 0 else 1) ∧
        fatalCount (Assert.True actual) = 0) ∧
    (∀ (actual : Bool) (format : String) (args : List String),
        failureCount (Assert.Falsef actual format args) = (if actual = false then 0 else 1) ∧
        fatalCount (Assert.Falsef actual format args) = 0) ∧
    (∀ actual : Bool,
        failureCount (Assert.False actual) = (if actual = false then 0 else 1) ∧
        fatalCount (Assert.False actual) = 0) ∧
    (∀ (actual : GoAny) (format : String) (args : List String),
        failureCount (Assert.Nilf actual format args) = (if actual = GoAny.nilInterface then 0 else 1) ∧
        fatalCount (Assert.Nilf actual format args) = 0) ∧
    (∀ actual : GoAny,
        failureCount (Assert.Nil actual) = (if actual = GoAny.nilInterface then 0 else 1) ∧
        fatalCount (Assert.Nil actual) = 0) ∧
    (∀ (actual : GoAny) (format : String) (args : List String),
        failureCount (Assert.NotNilf actual format args) = (if actual = GoAny.nilInterface then 1 else 0) ∧
        fatalCount (Assert.NotNilf actual format args) = 0) ∧
    (∀ actual : GoAny,
        failureCount (Assert.NotNil actual) = (if actual = GoAny.nilInterface then 1 else 0) ∧
        fatalCount (Assert.NotNil actual) = 0) ∧
    (∀ (str substr : String) (format : String) (args : List String),
        failureCount (Assert.StringContainsf str substr format args) = (if goStringContains str substr = true then 0 else 1) ∧
        fatalCount (Assert.StringContainsf str substr format args) = 0) ∧
    (∀ str substr : String,
        failureCount (Assert.StringContains str substr) = (if goStringContains str substr = true then 0 else 1) ∧
        fatalCount (Assert.StringContains str substr) = 0) ∧
    (∀ (str substr : String) (format : String) (args : List String),
        failureCount (Assert.StringDoesNotContainf str substr format args) = (if goStringContains str substr = true then 1 else 0) ∧
        fatalCount (Assert.StringDoesNotContainf str substr format args) = 0) ∧
    (∀ str substr : String,
        failureCount (Assert.StringDoesNotContain str substr) = (if goStringContains str substr = true then 1 else 0) ∧
        fatalCount (Assert.StringDoesNotContain str substr) = 0) ∧
    (∀ (π : Type) (f : Option π) (format : String) (args : List String),
        failureCount (panicsCalls (Assert.Panicsf f format args)) = (if f.isSome then 0 else 1) ∧
        fatalCount (panicsCalls (Assert.Panicsf f format args)) = 0 ∧
        (Assert.Panicsf f format args).isOk = true) ∧
    (∀ (π : Type) (f : Option π),
        failureCount (panicsCalls (Assert.Panics f)) = (if f.isSome then 0 else 1) ∧
        fatalCount (panicsCalls (Assert.Panics f)) = 0 ∧
        (Assert.Panics f).isOk = true) ∧
    (∀ (π : Type) (f : Option π) (format : String) (args : List String),
        failureCount (dnpCalls (Assert.DoesNotPanicf f format args)) = (if f.isSome then 1 else 0) ∧
        fatalCount (dnpCalls (Assert.DoesNotPanicf f format args)) = 0 ∧
        (Assert.DoesNotPanicf f format args).isOk = true) ∧
    (∀ (π : Type) (f : Option π),
        failureCount (dnpCalls (Assert.DoesNotPanic f)) = (if f.isSome then 1 else 0) ∧
        fatalCount (dnpCalls (Assert.DoesNotPanic f)) = 0 ∧
        (Assert.DoesNotPanic f).isOk = true) ∧
    (∀ (err target : Option GoErr) (format : String) (args : List String),
        failureCount (Assert.ErrorIsf err target format args) = (if errorsIsGo err target = true then 0 else 1) ∧
        fatalCount (Assert.ErrorIsf err target format args) = 0) ∧
    (∀ err target : Option GoErr,
        failureCount (Assert.ErrorIs err target) = (if errorsIsGo err target = true then 0 else 1) ∧
        fatalCount (Assert.ErrorIs err target) = 0) ∧
    (∀ (err target : Option GoErr) (format : String) (args : List String),
        failureCount (Assert.ErrorIsNotf err target format args) = (if errorsIsGo err target = true then 1 else 0) ∧
        fatalCount (Assert.ErrorIsNotf err target format args) = 0) ∧
    (∀ err target : Option GoErr,
        failureCount (Assert.ErrorIsNot err target) = (if errorsIsGo err target = true then 1 else 0) ∧
        fatalCount (Assert.ErrorIsNot err target) = 0) ∧
    (∀ (K V : Type) [DecidableEq K] (m : GoMap K V) (key : K) (format : String) (args : List String),
        failureCount (Assert.MapContainsKeyf m key format args) = (if m.hasKey key = true then 0 else 1) ∧
        fatalCount (Assert.MapContainsKeyf m key format args) = 0) ∧
    (∀ (K V : Type) [DecidableEq K] [ToString K] (m : GoMap K V) (key : K),
        failureCount (Assert.MapContainsKey m key) = (if m.hasKey key = true then 0 else 1) ∧
        fatalCount (Assert.MapContainsKey m key) = 0) ∧
    (∀ (K V : Type) [DecidableEq K] (m : GoMap K V) (key : K) (format : String) (args : List String),
        failureCount (Assert.MapDoesNotContainKeyf m key format args) = (if m.hasKey key = true then 1 else 0) ∧
        fatalCount (Assert.MapDoesNotContainKeyf m key format args) = 0) ∧
    (∀ (K V : Type) [DecidableEq K] [ToString K] (m : GoMap K V) (key : K),
        failureCount (Assert.MapDoesNotContainKey m key) = (if m.hasKey key = true then 1 else 0) ∧
        fatalCount (Assert.MapDoesNotContainKey m key) = 0) ∧
    (∀ (K V : Type) (m : GoMap K V) (format : String) (args : List String),
        failureCount (Assert.EmptyMapf m format args) = (if m.len = 0 then 0 else 1) ∧
        fatalCount (Assert.EmptyMapf m format args) = 0) ∧
    (∀ (K V : Type) [ToString K] [ToString V] (m : GoMap K V),
        failureCount (Assert.EmptyMap m) = (if m.len = 0 then 0 else 1) ∧
        fatalCount (Assert.EmptyMap m) = 0) ∧
    (∀ (K V : Type) (m : GoMap K V) (format : String) (args : List String),
        failureCount (Assert.NotEmptyMapf m format args) = (if m.len = 0 then 1 else 0) ∧
        fatalCount (Assert.NotEmptyMapf m format args) = 0) ∧
    (∀ (K V : Type) [ToString K] [ToString V] (m : GoMap K V),
        failureCount (Assert.NotEmptyMap m) = (if m.len = 0 then 1 else 0) ∧
        fatalCount (Assert.NotEmptyMap m) = 0) ∧
    (∀ (T : Type) (slice : GoSlice T) (format : String) (args : List String),
        failureCount (Assert.EmptySlicef slice format args) = (if slice.len = 0 then 0 else 1) ∧
        fatalCount (Assert.EmptySlicef slice format args) = 0) ∧
    (∀ (T : Type) [ToString T] (slice : GoSlice T),
        failureCount (Assert.EmptySlice slice) = (if slice.len = 0 then 0 else 1) ∧
        fatalCount (Assert.EmptySlice slice) = 0) ∧
    (∀ (T : Type) (slice : GoSlice T) (format : String) (args : List String),
        failureCount (Assert.NotEmptySlicef slice format args) = (if slice.len = 0 then 1 else 0) ∧
        fatalCount (Assert.NotEmptySlicef slice format args) = 0) ∧
    (∀ (T : Type) [ToString T] (slice : GoSlice T),
        failureCount (Assert.NotEmptySlice slice) = (if slice.len = 0 then 1 else 0) ∧
        fatalCount (Assert.NotEmptySlice slice) = 0) ∧
    (∀ (T : Type) [DecidableEq T] (expected actual : T) (format : String) (args : List String),
        failureCount (Assert.DeepEqualf expected actual format args) = (if deepEqualGo expected actual = true then 0 else 1) ∧
        fatalCount (Assert.DeepEqualf expected actual format args) = 0) ∧
    (∀ (T : Type) [DecidableEq T] [ToString T] (expected actual : T),
        failureCount (Assert.DeepEqual expected actual) = (if deepEqualGo expected actual = true then 0 else 1) ∧
        fatalCount (Assert.DeepEqual expected actual) = 0) ∧
    (∀ (T : Type) [DecidableEq T] (expected actual : T) (format : String) (args : List String),
        failureCount (Assert.NotDeepEqualf expected actual format args) = (if deepEqualGo expected actual = true then 1 else 0) ∧
        fatalCount (Assert.NotDeepEqualf expected actual format args) = 0) ∧
    (∀ (T : Type) [DecidableEq T] [ToString T] (expected actual : T),
        failureCount (Assert.NotDeepEqual expected actual) = (if deepEqualGo expected actual = true then 1 else 0) ∧
        fatalCount (Assert.NotDeepEqual expected actual) = 0) := by
  refine ⟨?_, ?_, ?_, ?_, ?_, ?_, ?_, ?_, ?_, ?_, ?_, ?_, ?_, ?_, ?_, ?_, ?_, ?_, ?_, ?_,
    ?_, ?_, ?_, ?_, ?_, ?_, ?_, ?_, ?_, ?_, ?_, ?_, ?_, ?_, ?_, ?_, ?_, ?_, ?_, ?_⟩
  · intro T _ e a format args
    constructor <;> by_cases h : e = a <;> simp [Assert.Equalf, h]
  · intro T _ _ e a
    constructor <;> by_cases h : e = a <;> simp [Assert.Equal, Assert.Equalf, h]
  · intro T _ e a format args
    constructor <;> by_cases h : e = a <;> simp [Assert.NotEqualf, h]
  · intro T _ _ e a
    constructor <;> by_cases h : e = a <;> simp [Assert.NotEqual, Assert.NotEqualf, h]
  · intro a format args
    constructor <;> cases a <;> simp [Assert.Truef, Assert.Equalf]
  · intro a
    constructor <;> cases a <;> simp [Assert.True, Assert.Truef, Assert.Equalf]
  · intro a format args
    constructor <;> cases a <;> simp [Assert.Falsef, Assert.Equalf]
  · intro a
    constructor <;> cases a <;> simp [Assert.False, Assert.Falsef, Assert.Equalf]
  · intro v format args
    constructor <;> by_cases h : v = GoAny.nilInterface <;> simp [Assert.Nilf, h]
  · intro v
    constructor <;> by_cases h : v = GoAny.nilInterface <;> simp [Assert.Nil, Assert.Nilf, h]
  · intro v format args
    constructor <;> by_cases h : v = GoAny.nilInterface <;> simp [Assert.NotNilf, h]
  · intro v
    constructor <;> by_cases h : v = GoAny.nilInterface <;> simp [Assert.NotNil, Assert.NotNilf, h]
  · intro str substr format args
    constructor <;> cases h : goStringContains str substr <;> simp [Assert.StringContainsf, h]
  · intro str substr
    constructor <;> cases h : goStringContains str substr <;>
      simp [Assert.StringContains, Assert.StringContainsf, h]
  · intro str substr format args
    constructor <;> cases h : goStringContains str substr <;>
      simp [Assert.StringDoesNotContainf, h]
  · intro str substr
    constructor <;> cases h : goStringContains str substr <;>
      simp [Assert.StringDoesNotContain, Assert.StringDoesNotContainf, h]
  · intro π f format args
    refine ⟨?_, ?_, ?_⟩ <;> cases f <;>
      simp [Assert.Panicsf, panicsCalls, Outcome.isOk]
  · intro π f
    refine ⟨?_, ?_, ?_⟩ <;> cases f <;>
      simp [Assert.Panics, Assert.Panicsf, panicsCalls, Outcome.isOk]
  · intro π f format args
    refine ⟨?_, ?_, ?_⟩ <;> cases f <;>
      simp [Assert.DoesNotPanicf, dnpCalls, Outcome.isOk]
  · intro π f
    refine ⟨?_, ?_, ?_⟩ <;> cases f <;>
      simp [Assert.DoesNotPanic, Assert.DoesNotPanicf, dnpCalls, Outcome.isOk]
  · intro err target format args
    constructor <;> cases h : errorsIsGo err target <;> simp [Assert.ErrorIsf, h]
  · intro err target
    constructor <;> cases h : errorsIsGo err target <;>
      simp [Assert.ErrorIs, Assert.ErrorIsf, h]
  · intro err target format args
    constructor <;> cases h : errorsIsGo err target <;> simp [Assert.ErrorIsNotf, h]
  · intro err target
    constructor <;> cases h : errorsIsGo err target <;>
      simp [Assert.ErrorIsNot, Assert.ErrorIsNotf, h]
  · intro K V _ m key format args
    constructor <;> cases h : m.hasKey key <;> simp [Assert.MapContainsKeyf, h]
  · intro K V _ _ m key
    constructor <;> cases h : m.hasKey key <;>
      simp [Assert.MapContainsKey, Assert.MapContainsKeyf, h]
  · intro K V _ m key format args
    constructor <;> cases h : m.hasKey key <;> simp [Assert.MapDoesNotContainKeyf, h]
  · intro K V _ _ m key
    constructor <;> cases h : m.hasKey key <;>
      simp [Assert.MapDoesNotContainKey, Assert.MapDoesNotContainKeyf, h]
  · intro K V m format args
    constructor <;> by_cases h : m.len = 0 <;> simp [Assert.EmptyMapf, h]
  · intro K V _ _ m
    constructor <;> by_cases h : m.len = 0 <;> simp [Assert.EmptyMap, Assert.EmptyMapf, h]
  · intro K V m format args
    constructor <;> by_cases h : m.len = 0 <;> simp [Assert.NotEmptyMapf, h]
  · intro K V _ _ m
    constructor <;> by_cases h : m.len = 0 <;> simp [Assert.NotEmptyMap, Assert.NotEmptyMapf, h]
  · intro T slice format args
    constructor <;> by_cases h : slice.len = 0 <;> simp [Assert.EmptySlicef, h]
  · intro T _ slice
    constructor <;> by_cases h : slice.len = 0 <;> simp [Assert.EmptySlice, Assert.EmptySlicef, h]
  · intro T slice format args
    constructor <;> by_cases h : slice.len = 0 <;> simp [Assert.NotEmptySlicef, h]
  · intro T _ slice
    constructor <;> by_cases h : slice.len = 0 <;>
      simp [Assert.NotEmptySlice, Assert.NotEmptySlicef, h]
  · intro T _ e a format args
    constructor <;> cases h : deepEqualGo e a <;> simp [Assert.DeepEqualf, h]
  · intro T _ _ e a
    constructor <;> cases h : deepEqualGo e a <;> simp [Assert.DeepEqual, Assert.DeepEqualf, h]
  · intro T _ e a format args
    constructor <;> cases h : deepEqualGo e a <;> simp [Assert.NotDeepEqualf, h]
  · intro T _ _ e a
    constructor <;> cases h : deepEqualGo e a <;>
      simp [Assert.NotDeepEqual, Assert.NotDeepEqualf, h]

/-- C7: every default-message check delegates to its formatted variant
with a built-in message naming the checked values, and the two variants
reach the identical verdict (same number of failure reports) on identical
checked inputs, whatever message the formatted variant is given. -/
theorem default_variants_delegate :
    (∀ (T : Type) [DecidableEq T] [ToString T] (expected actual : T),
        Assert.Equal expected actual =
          TBCall.helper :: Assert.Equalf expected actual "expected %v to equal %v" [toString actual, toString expected] ∧
        (∀ (format : String) (args : List String),
            failureCount (Assert.Equal expected actual) = failureCount (Assert.Equalf expected actual format args))) ∧
    (∀ (T : Type) [DecidableEq T] [ToString T] (expected actual : T),
        Assert.NotEqual expected actual =
          TBCall.helper :: Assert.NotEqualf expected actual "expected %v to not equal %v" [toString actual, toString expected] ∧
        (∀ (format : String) (args : List String),
            failureCount (Assert.NotEqual expected actual) = failureCount (Assert.NotEqualf expected actual format args))) ∧
    (∀ actual : Bool,
        Assert.True actual =
          TBCall.helper :: Assert.Truef actual "expected %v to be true" [toString actual] ∧
        (∀ (format : String) (args : List String),
            failureCount (Assert.True actual) = failureCount (Assert.Truef actual format args))) ∧
    (∀ actual : Bool,
        Assert.False actual =
          TBCall.helper :: Assert.Falsef actual "expected %v to be false" [toString actual] ∧
        (∀ (format : String) (args : List String),
            failureCount (Assert.False actual) = failureCount (Assert.Falsef actual format args))) ∧
    (∀ actual : GoAny,
        Assert.Nil actual =
          TBCall.helper :: Assert.Nilf actual "expected %v to be nil" [actual.render] ∧
        (∀ (format : String) (args : List String),
            failureCount (Assert.Nil actual) = failureCount (Assert.Nilf actual format args))) ∧
    (∀ actual : GoAny,
        Assert.NotNil actual =
          TBCall.helper :: Assert.NotNilf actual "expected %v to not be nil" [actual.render] ∧
        (∀ (format : String) (args : List String),
            failureCount (Assert.NotNil actual) = failureCount (Assert.NotNilf actual format args))) ∧
    (∀ str substr : String,
        Assert.StringContains str substr =
          TBCall.helper :: Assert.StringContainsf str substr "expected %v to contain the substring %v" [str, substr] ∧
        (∀ (format : String) (args : List String),
            failureCount (Assert.StringContains str substr) = failureCount (Assert.StringContainsf str substr format args))) ∧
    (∀ str substr : String,
        Assert.StringDoesNotContain str substr =
          TBCall.helper :: Assert.StringDoesNotContainf str substr "expected %v to not contain the substring %v" [str, substr] ∧
        (∀ (format : String) (args : List String),
            failureCount (Assert.StringDoesNotContain str substr) = failureCount (Assert.StringDoesNotContainf str substr format args))) ∧
    (∀ (π : Type) (f : Option π),
        panicsCalls (Assert.Panics f) =
          TBCall.helper :: panicsCalls (Assert.Panicsf f "expected function to panic, did not panic" []) ∧
        panicsRecovery (Assert.Panics f) =
          panicsRecovery (Assert.Panicsf f "expected function to panic, did not panic" []) ∧
        (∀ (format : String) (args : List String),
            failureCount (panicsCalls (Assert.Panics f)) = failureCount (panicsCalls (Assert.Panicsf f format args)))) ∧
    (∀ (π : Type) (f : Option π),
        dnpCalls (Assert.DoesNotPanic f) =
          TBCall.helper :: dnpCalls (Assert.DoesNotPanicf f "expected function to not panic, did panic" []) ∧
        (∀ (format : String) (args : List String),
            failureCount (dnpCalls (Assert.DoesNotPanic f)) = failureCount (dnpCalls (Assert.DoesNotPanicf f format args)))) ∧
    (∀ err target : Option GoErr,
        Assert.ErrorIs err target =
          TBCall.helper :: Assert.ErrorIsf err target "expected error %v to be %v" [renderErrOpt err, renderErrOpt target] ∧
        (∀ (format : String) (args : List String),
            failureCount (Assert.ErrorIs err target) = failureCount (Assert.ErrorIsf err target format args))) ∧
    (∀ err target : Option GoErr,
        Assert.ErrorIsNot err target =
          TBCall.helper :: Assert.ErrorIsNotf err target "expected error %v to not be %v" [renderErrOpt err, renderErrOpt target] ∧
        (∀ (format : String) (args : List String),
            failureCount (Assert.ErrorIsNot err target) = failureCount (Assert.ErrorIsNotf err target format args))) ∧
    (∀ (K V : Type) [DecidableEq K] [ToString K] (m : GoMap K V) (key : K),
        Assert.MapContainsKey m key =
          TBCall.helper :: Assert.MapContainsKeyf m key "expected map to contain key %v" [toString key] ∧
        (∀ (format : String) (args : List String),
            failureCount (Assert.MapContainsKey m key) = failureCount (Assert.MapContainsKeyf m key format args))) ∧
    (∀ (K V : Type) [DecidableEq K] [ToString K] (m : GoMap K V) (key : K),
        Assert.MapDoesNotContainKey m key =
          TBCall.helper :: Assert.MapDoesNotContainKeyf m key "expected map to not contain key %v" [toString key] ∧
        (∀ (format : String) (args : List String),
            failureCount (Assert.MapDoesNotContainKey m key) = failureCount (Assert.MapDoesNotContainKeyf m key format args))) ∧
    (∀ (K V : Type) [ToString K] [ToString V] (m : GoMap K V),
        Assert.EmptyMap m =
          TBCall.helper :: Assert.EmptyMapf m "expected map %v to be empty" [goMapRender m] ∧
        (∀ (format : String) (args : List String),
            failureCount (Assert.EmptyMap m) = failureCount (Assert.EmptyMapf m format args))) ∧
    (∀ (K V : Type) [ToString K] [ToString V] (m : GoMap K V),
        Assert.NotEmptyMap m =
          TBCall.helper :: Assert.NotEmptyMapf m "expected map %v to not be empty" [goMapRender m] ∧
        (∀ (format : String) (args : List String),
            failureCount (Assert.NotEmptyMap m) = failureCount (Assert.NotEmptyMapf m format args))) ∧
    (∀ (T : Type) [ToString T] (slice : GoSlice T),
        Assert.EmptySlice slice =
          TBCall.helper :: Assert.EmptySlicef slice "expected slice %v to be empty" [goSliceRender slice] ∧
        (∀ (format : String) (args : List String),
            failureCount (Assert.EmptySlice slice) = failureCount (Assert.EmptySlicef slice format args))) ∧
    (∀ (T : Type) [ToString T] (slice : GoSlice T),
        Assert.NotEmptySlice slice =
          TBCall.helper :: Assert.NotEmptySlicef slice "expected slice %v to not be empty" [goSliceRender slice] ∧
        (∀ (format : String) (args : List String),
            failureCount (Assert.NotEmptySlice slice) = failureCount (Assert.NotEmptySlicef slice format args))) ∧
    (∀ (T : Type) [DecidableEq T] [ToString T] (expected actual : T),
        Assert.DeepEqual expected actual =
          TBCall.helper :: Assert.DeepEqualf expected actual "expected %v to reflect.DeepEqual %v" [toString actual, toString expected] ∧
        (∀ (format : String) (args : List String),
            failureCount (Assert.DeepEqual expected actual) = failureCount (Assert.DeepEqualf expected actual format args))) ∧
    (∀ (T : Type) [DecidableEq T] [ToString T] (expected actual : T),
        Assert.NotDeepEqual expected actual =
          TBCall.helper :: Assert.NotDeepEqualf expected actual "expected %v to not reflect.DeepEqual %v" [toString actual, toString expected] ∧
        (∀ (format : String) (args : List String),
            failureCount (Assert.NotDeepEqual expected actual) = failureCount (Assert.NotDeepEqualf expected actual format args))) := by
  refine ⟨?_, ?_, ?_, ?_, ?_, ?_, ?_, ?_, ?_, ?_, ?_, ?_, ?_, ?_, ?_, ?_, ?_, ?_, ?_, ?_⟩
  · intro T _ _ e a
    refine ⟨rfl, fun format args => ?_⟩
    by_cases h : e = a <;> simp [Assert.Equal, Assert.Equalf, h]
  · intro T _ _ e a
    refine ⟨rfl, fun format args => ?_⟩
    by_cases h : e = a <;> simp [Assert.NotEqual, Assert.NotEqualf, h]
  · intro a
    refine ⟨rfl, fun format args => ?_⟩
    cases a <;> simp [Assert.True, Assert.Truef, Assert.Equalf]
  · intro a
    refine ⟨rfl, fun format args => ?_⟩
    cases a <;> simp [Assert.False, Assert.Falsef, Assert.Equalf]
  · intro v
    refine ⟨rfl, fun format args => ?_⟩
    by_cases h : v = GoAny.nilInterface <;> simp [Assert.Nil, Assert.Nilf, h]
  · intro v
    refine ⟨rfl, fun format args => ?_⟩
    by_cases h : v = GoAny.nilInterface <;> simp [Assert.NotNil, Assert.NotNilf, h]
  · intro str substr
    refine ⟨rfl, fun format args => ?_⟩
    cases h : goStringContains str substr <;>
      simp [Assert.StringContains, Assert.StringContainsf, h]
  · intro str substr
    refine ⟨rfl, fun format args => ?_⟩
    cases h : goStringContains str substr <;>
      simp [Assert.StringDoesNotContain, Assert.StringDoesNotContainf, h]
  · intro π f
    refine ⟨rfl, rfl, fun format args => ?_⟩
    cases f <;> simp [Assert.Panics, Assert.Panicsf, panicsCalls]
  · intro π f
    refine ⟨rfl, fun format args => ?_⟩
    cases f <;> simp [Assert.DoesNotPanic, Assert.DoesNotPanicf, dnpCalls]
  · intro err target
    refine ⟨rfl, fun format args => ?_⟩
    cases h : errorsIsGo err target <;> simp [Assert.ErrorIs, Assert.ErrorIsf, h]
  · intro err target
    refine ⟨rfl, fun format args => ?_⟩
    cases h : errorsIsGo err target <;> simp [Assert.ErrorIsNot, Assert.ErrorIsNotf, h]
  · intro K V _ _ m key
    refine ⟨rfl, fun format args => ?_⟩
    cases h : m.hasKey key <;> simp [Assert.MapContainsKey, Assert.MapContainsKeyf, h]
  · intro K V _ _ m key
    refine ⟨rfl, fun format args => ?_⟩
    cases h : m.hasKey key <;>
      simp [Assert.MapDoesNotContainKey, Assert.MapDoesNotContainKeyf, h]
  · intro K V _ _ m
    refine ⟨rfl, fun format args => ?_⟩
    by_cases h : m.len = 0 <;> simp [Assert.EmptyMap, Assert.EmptyMapf, h]
  · intro K V _ _ m
    refine ⟨rfl, fun format args => ?_⟩
    by_cases h : m.len = 0 <;> simp [Assert.NotEmptyMap, Assert.NotEmptyMapf, h]
  · intro T _ slice
    refine ⟨rfl, fun format args => ?_⟩
    by_cases h : slice.len = 0 <;> simp [Assert.EmptySlice, Assert.EmptySlicef, h]
  · intro T _ slice
    refine ⟨rfl, fun format args => ?_⟩
    by_cases h : slice.len = 0 <;> simp [Assert.NotEmptySlice, Assert.NotEmptySlicef, h]
  · intro T _ _ e a
    refine ⟨rfl, fun format args => ?_⟩
    cases h : deepEqualGo e a <;> simp [Assert.DeepEqual, Assert.DeepEqualf, h]
  · intro T _ _ e a
    refine ⟨rfl, fun format args => ?_⟩
    cases h : deepEqualGo e a <;> simp [Assert.NotDeepEqual, Assert.NotDeepEqualf, h]
